import Mathlib

/-!
Verification of the Portfolio-Compass core subsystem: the multi-source
consensus price engine (`modernized_backend/services/prices/fetcher.py`)
and the stale-while-revalidate cache wrapper
(`modernized_backend/core/cache.py`), shallowly embedded in Lean 4.

Prices and timestamps are modelled by `ℚ` (the Python code computes with
floats; all concrete inputs appearing in the spec are exactly
representable and every comparison they induce is exact, so the rational
model decides the same branches).
-/

/-- Arithmetic mean of a list, `l.sum / l.length` — the embedding of
pandas `Series.mean()` / Python `sum(prices) / len(prices)`. -/
def listMean (l : List ℚ) : ℚ := l.sum / (l.length : ℚ)

/-- The ddof = 1 (Bessel-corrected) sample variance
`Σ (x - mean)^2 / (n - 1)`: the square of what pandas `Series.std()`
computes by default, which is what `calculate_consensus_price` calls. -/
def sampleVariance (l : List ℚ) : ℚ :=
  ((l.map (fun x => (x - listMean l) ^ 2)).sum) / ((l.length : ℚ) - 1)

/-- The z-score acceptance test of `calculate_consensus_price`:
`abs((x - mean) / std) <= 1.5`.  On the branch where it is evaluated the
code has already checked `std != 0`, so `std > 0` and the test is
equivalent to the sqrt-free form `(x - mean)^2 ≤ 1.5^2 * std^2
= (9/4) * sampleVariance`, which is exact over `ℚ`. -/
def zOk (μ v x : ℚ) : Bool := decide ((x - μ) ^ 2 ≤ 9 / 4 * v)

/-- Embedding of `calculate_consensus_price` from
`modernized_backend/services/prices/fetcher.py`.  Branch for branch:
empty input → `(None, [])`; fewer than 3 prices → mean with no outliers;
zero standard deviation → first price with no outliers; otherwise filter
by `|z| ≤ 1.5` (z-scores taken against the ddof = 1 std, pandas'
default), returning `(None, all indices)` if every price is rejected and
otherwise the mean of the accepted prices together with the indices
(`df[~mask].index.tolist()`) of the rejected ones. -/
def calculate_consensus_price (prices : List ℚ) : Option ℚ × List ℕ :=
  if prices = [] then (none, [])
  else if prices.length < 3 then (some (listMean prices), [])
  else if sampleVariance prices = 0 then (some prices.headI, [])
  else if prices.filter (zOk (listMean prices) (sampleVariance prices)) = [] then
    (none, List.range prices.length)
  else
    (some (listMean (prices.filter (zOk (listMean prices) (sampleVariance prices)))),
     (List.range prices.length).filter
       (fun i => ! zOk (listMean prices) (sampleVariance prices) (prices.getD i 0)))

/-- `PriceFetcher.fetch_price` after the concurrent gather: each provider
outcome is either an exception (`Except.error`), a clean no-data result
(`.ok none`), or a price (`.ok (some p)`).  The successful non-absent
readings form `valid_prices`; if none exist the result is `none`,
otherwise the consensus value. -/
def fetch_price {ε : Type} (results : List (Except ε (Option ℚ))) : Option ℚ :=
  let valid_prices := results.filterMap (fun r =>
    match r with
    | .ok (some p) => some p
    | _ => none)
  if valid_prices = [] then none
  else (calculate_consensus_price valid_prices).1

/-- Observable outcome of one invocation of the `stale_while_revalidate`
wrapper from `modernized_backend/core/cache.py`: the value (or error)
handed to the caller, whether the wrapped function was awaited
synchronously, whether a background refresh task was created
(`asyncio.create_task`, never awaited), and the cache entry for the key
after the synchronous part of the call. -/
structure SwrOutcome (α ε : Type) where
  result : Except ε α
  syncFetch : Bool
  backgroundRefresh : Bool
  entry : Option (ℚ × α)

/-- The inner `fetch_and_cache` closure of the wrapper: if the wrapped
function raises, the exception bubbles up and the entry is untouched;
on success the result is returned and, when the Redis `set` succeeds
(`writeOk`), the entry becomes `(timestamp, result)` — a failed write is
only logged, leaving the entry as it was. -/
def fetch_and_cache {α ε : Type} (fetchResult : Except ε α) (writeOk : Bool)
    (fetchTime : ℚ) (entry : Option (ℚ × α)) : Except ε α × Option (ℚ × α) :=
  match fetchResult with
  | .error e => (.error e, entry)
  | .ok v => (.ok v, if writeOk then some (fetchTime, v) else entry)

/-- One invocation of the `stale_while_revalidate` wrapper.  `readResult`
is the outcome of the Redis `get` plus deserialization (an exception is
caught and treated as a miss: `cached_data` stays `None`); `now` is
`time.time()` at entry; `fetchResult` is what `await func(...)` would
produce if invoked; `writeOk` is whether the Redis `set` would succeed;
`fetchTime` is the timestamp a successful write would record.  Control
flow mirrors the code: a cached pair younger than `ttl` is returned with
no fetch; younger than `ttl + grace_period`, returned while a background
task is created but not awaited; otherwise (miss or expired) the wrapped
function is awaited via `fetch_and_cache`. -/
def stale_while_revalidate {α ε : Type} (ttl grace_period : ℚ)
    (readResult : Except ε (Option (ℚ × α))) (now : ℚ)
    (fetchResult : Except ε α) (writeOk : Bool) (fetchTime : ℚ) :
    SwrOutcome α ε :=
  match (match readResult with
         | .error _ => none
         | .ok o => o : Option (ℚ × α)) with
  | some (ts, v) =>
    if now - ts < ttl then
      ⟨.ok v, false, false, some (ts, v)⟩
    else if now - ts < ttl + grace_period then
      ⟨.ok v, false, true, some (ts, v)⟩
    else
      ⟨(fetch_and_cache fetchResult writeOk fetchTime (some (ts, v))).1, true, false,
        (fetch_and_cache fetchResult writeOk fetchTime (some (ts, v))).2⟩
  | none =>
    ⟨(fetch_and_cache fetchResult writeOk fetchTime none).1, true, false,
      (fetch_and_cache fetchResult writeOk fetchTime none).2⟩

/-- Python `str()` of the kwargs dict as the wrapper interpolates it into
the key: pairs rendered `key: value` (each side already in its `repr`
form), joined by `", "`, in insertion order — CPython dicts preserve the
order in which keyword arguments were supplied. -/
def pyDictStr (kwargs : List (String × String)) : String :=
  "\x7b" ++ String.intercalate ", " (kwargs.map (fun p => p.1 ++ ": " ++ p.2)) ++ "\x7d"

/-- The canonical string the wrapper hashes:
`f"{func.__module__}:{func.__name__}:{str(args)}:{str(kwargs)}"`.  The
subsequent SHA-256 step is a fixed deterministic function of this
string, so equality and inequality of cache keys are decided here; we
therefore model the key by its preimage. -/
def key_content (module funcName argsStr : String)
    (kwargs : List (String × String)) : String :=
  module ++ ":" ++ funcName ++ ":" ++ argsStr ++ ":" ++ pyDictStr kwargs

/-- If every element of `l` strictly exceeds `c`, the sum strictly
exceeds `length * c` (nonempty `l`). -/
lemma length_mul_lt_sum (l : List ℚ) (c : ℚ) (h0 : l ≠ []) (h : ∀ x ∈ l, c < x) :
    (l.length : ℚ) * c < l.sum := by
  induction l with
  | nil => exact absurd rfl h0
  | cons a t ih =>
    rcases eq_or_ne t [] with rfl | ht
    · have := h a (List.mem_cons_self a [])
      simpa using this
    · have h1 := ih ht (fun x hx => h x (List.mem_cons_of_mem a hx))
      have h2 := h a (List.mem_cons_self a t)
      have : ((t.length : ℚ) + 1) * c < a + t.sum := by nlinarith
      simpa [List.length_cons, add_mul, add_comm, add_left_comm] using this

/-- On the statistical branch (≥ 3 prices, nonzero variance) the set of
prices passing the `|z| ≤ 1.5` test is never empty: if every price
failed, summing the squared deviations would give
`(n-1)·s² = Σ(x-μ)² > n·(9/4)·s²`, impossible for `n ≥ 3`, `s² > 0`. -/
lemma consensus_valid_ne_nil (l : List ℚ) (h3 : 3 ≤ l.length)
    (hv : sampleVariance l ≠ 0) :
    l.filter (zOk (listMean l) (sampleVariance l)) ≠ [] := by
  intro hnil
  have hall : ∀ x ∈ l, 9 / 4 * sampleVariance l < (x - listMean l) ^ 2 := by
    intro x hx
    have hfalse := List.filter_eq_nil_iff.mp hnil x hx
    have : ¬ ((x - listMean l) ^ 2 ≤ 9 / 4 * sampleVariance l) := by
      simpa [zOk] using hfalse
    exact lt_of_not_le this
  have hn3 : (3 : ℚ) ≤ (l.length : ℚ) := by exact_mod_cast h3
  have hd : ((l.length : ℚ) - 1) ≠ 0 := by linarith
  have hS : ((l.map (fun x => (x - listMean l) ^ 2)).sum)
      = sampleVariance l * ((l.length : ℚ) - 1) := by
    unfold sampleVariance
    rw [div_mul_cancel₀ _ hd]
  have hS0 : 0 ≤ ((l.map (fun x => (x - listMean l) ^ 2)).sum) := by
    apply List.sum_nonneg
    intro y hy
    obtain ⟨x, _, rfl⟩ := List.mem_map.mp hy
    positivity
  have hv0 : 0 < sampleVariance l := by
    have hge : 0 ≤ sampleVariance l := by
      unfold sampleVariance
      exact div_nonneg hS0 (by linarith)
    exact lt_of_le_of_ne hge (Ne.symm hv)
  have hne : l.map (fun x => (x - listMean l) ^ 2) ≠ [] := by
    intro hmap
    have : l = [] := List.map_eq_nil_iff.mp hmap
    subst this
    simp at h3
  have hlt := length_mul_lt_sum (l.map (fun x => (x - listMean l) ^ 2))
      (9 / 4 * sampleVariance l) hne ?_
  · rw [hS, List.length_map] at hlt
    nlinarith
  · intro y hy
    obtain ⟨x, hx, rfl⟩ := List.mem_map.mp hy
    exact hall x hx

/-- C7: on `[100, 101, 99]` (three prices, sample std 1, z-scores
0, 1, −1, all within 1.5) consensus is their mean 100 with no outliers;
the statistical branch, not the fewer-than-3 rule, is taken. -/
theorem spec_C7 :
    3 ≤ ([100, 101, 99] : List ℚ).length ∧
    calculate_consensus_price [100, 101, 99] = (some 100, []) := by
  constructor
  · decide
  · norm_num [calculate_consensus_price, listMean, sampleVariance, zOk, List.range_succ,
      List.cons_ne_nil]

/-- C8: a nonempty price list with fewer than 3 elements yields its
arithmetic mean and an empty outlier list. -/
theorem spec_C8 (l : List ℚ) (h0 : l ≠ []) (h3 : l.length < 3) :
    calculate_consensus_price l = (some (listMean l), []) := by
  rw [calculate_consensus_price, if_neg h0, if_pos h3]

/-- C9: on any nonempty price list `calculate_consensus_price` returns a
numeric value — the all-outliers branch is unreachable, since the squared
z-scores sum to `n - 1 ≤ n`, so they cannot all exceed `1.5^2`. -/
theorem spec_C9 (l : List ℚ) (h : l ≠ []) :
    ((calculate_consensus_price l).1).isSome = true := by
  unfold calculate_consensus_price
  rw [if_neg h]
  by_cases h3 : l.length < 3
  · rw [if_pos h3]
    rfl
  · rw [if_neg h3]
    by_cases hv : sampleVariance l = 0
    · rw [if_pos hv]
      rfl
    · rw [if_neg hv, if_neg (consensus_valid_ne_nil l (by omega) hv)]
      rfl

/-- Witness for C9 at the nonempty input `[100, 100, 100, 1000]`. -/
theorem spec_C9_witness :
    ([100, 100, 100, 1000] : List ℚ) ≠ [] ∧
    ((calculate_consensus_price [100, 100, 100, 1000]).1).isSome = true :=
  ⟨by simp, spec_C9 [100, 100, 100, 1000] (by simp)⟩

/-- C1 counterexample: pandas `Series.std()` defaults to the ddof = 1
sample standard deviation, so for `[100, 100, 100, 1000]` the z-score of
`1000` is `675 / 450 = 1.5` exactly, which does not exceed the `1.5`
threshold: nothing is excluded and the result is the mean `325` of all
four prices — not `(100, [3])` as the claim states. -/
theorem spec_C1_counterexample :
    calculate_consensus_price [100, 100, 100, 1000] = (some 325, []) ∧
    calculate_consensus_price [100, 100, 100, 1000] ≠ (some 100, [3]) := by
  have h : calculate_consensus_price [100, 100, 100, 1000] = (some 325, []) := by
    norm_num [calculate_consensus_price, listMean, sampleVariance, zOk, List.range_succ,
      List.cons_ne_nil]
  refine ⟨h, ?_⟩
  rw [h]
  norm_num

/-- C1 amended: the engine computes z-scores against the sample
(ddof = 1) standard deviation — `i` is reported as an outlier iff
`i < n` and `(x_i - mean)^2 > 1.5^2 * sampleVariance`, i.e. `|z| > 1.5`
with the sample std — and on `[100, 100, 100, 1000]` the z-score of
`1000` is exactly `1.5`, so no value is excluded and the result is `325`,
the mean of all four values. -/
theorem spec_C1_amended (l : List ℚ) (h3 : 3 ≤ l.length)
    (hv : sampleVariance l ≠ 0) :
    (∀ i, i ∈ (calculate_consensus_price l).2 ↔
        i < l.length ∧ 9 / 4 * sampleVariance l < (l.getD i 0 - listMean l) ^ 2) ∧
    calculate_consensus_price [100, 100, 100, 1000] = (some 325, []) := by
  constructor
  · intro i
    have h0 : l ≠ [] := by
      intro hnil
      subst hnil
      simp at h3
    have hlt : ¬ l.length < 3 := by omega
    unfold calculate_consensus_price
    rw [if_neg h0, if_neg hlt, if_neg hv, if_neg (consensus_valid_ne_nil l h3 hv)]
    simp only [List.mem_filter, List.mem_range, Bool.not_eq_true', zOk,
      decide_eq_false_iff_not, not_le]
  · norm_num [calculate_consensus_price, listMean, sampleVariance, zOk, List.range_succ,
      List.cons_ne_nil]

/-- Witness for C1-amended on `[0, 0, 0, 100]` (variance `2500 ≠ 0`),
instantiating the outlier characterization at index 3. -/
theorem spec_C1_amended_witness :
    (3 ∈ (calculate_consensus_price [0, 0, 0, 100]).2 ↔
        3 < ([0, 0, 0, 100] : List ℚ).length ∧
        9 / 4 * sampleVariance [0, 0, 0, 100] <
          (([0, 0, 0, 100] : List ℚ).getD 3 0 - listMean [0, 0, 0, 100]) ^ 2) ∧
    calculate_consensus_price [100, 100, 100, 1000] = (some 325, []) := by
  have h := spec_C1_amended [0, 0, 0, 100] (by decide)
    (by norm_num [sampleVariance, listMean])
  exact ⟨h.1 3, h.2⟩

/-- Witness for C8 at the spec's concrete input `[100, 200]`. -/
theorem spec_C8_witness :
    ([100, 200] : List ℚ) ≠ [] ∧ ([100, 200] : List ℚ).length < 3 ∧
    calculate_consensus_price [100, 200] = (some 150, []) := by
  refine ⟨by simp, by decide, ?_⟩
  rw [spec_C8 [100, 200] (by simp) (by decide)]
  norm_num [listMean]

/-- The first component of `fetch_and_cache` is the wrapped call's own
outcome: an error bubbles up unchanged, a value is returned whether or
not the store write succeeded. -/
lemma fetch_and_cache_fst {α ε : Type} (fr : Except ε α) (w : Bool) (ft : ℚ)
    (e : Option (ℚ × α)) : (fetch_and_cache fr w ft e).1 = fr := by
  cases fr <;> rfl

/-- C2: the wrapper's freshness trichotomy.  With a cached entry of age
`now - ts`: below `ttl` the cached value is returned and the wrapped
function is neither awaited nor scheduled; in `[ttl, ttl + grace)` the
cached value is returned while a background refresh task is created but
not awaited; at or past `ttl + grace` — or with no entry — the wrapped
function is awaited synchronously and its own outcome returned. -/
theorem spec_C2 {α ε : Type} (ttl grace ts now ft : ℚ) (v : α)
    (readRes : Except ε (Option (ℚ × α))) (fr : Except ε α) (w : Bool)
    (hg : 0 ≤ grace) :
    (readRes = .ok (some (ts, v)) → now - ts < ttl →
      stale_while_revalidate ttl grace readRes now fr w ft =
        ⟨.ok v, false, false, some (ts, v)⟩) ∧
    (readRes = .ok (some (ts, v)) → ttl ≤ now - ts → now - ts < ttl + grace →
      stale_while_revalidate ttl grace readRes now fr w ft =
        ⟨.ok v, false, true, some (ts, v)⟩) ∧
    (readRes = .ok (some (ts, v)) → ttl + grace ≤ now - ts →
      (stale_while_revalidate ttl grace readRes now fr w ft).syncFetch = true ∧
      (stale_while_revalidate ttl grace readRes now fr w ft).result = fr) ∧
    (readRes = .ok none →
      (stale_while_revalidate ttl grace readRes now fr w ft).syncFetch = true ∧
      (stale_while_revalidate ttl grace readRes now fr w ft).result = fr) := by
  refine ⟨?_, ?_, ?_, ?_⟩
  · rintro rfl h1
    simp [stale_while_revalidate, h1]
  · rintro rfl h1 h2
    simp [stale_while_revalidate, h2, not_lt.mpr h1]
  · rintro rfl h1
    have hn1 : ¬ now - ts < ttl := not_lt.mpr (by linarith)
    have hn2 : ¬ now - ts < ttl + grace := not_lt.mpr h1
    simp [stale_while_revalidate, hn1, hn2, fetch_and_cache_fst]
  · rintro rfl
    simp [stale_while_revalidate, fetch_and_cache_fst]

/-- Witness for C2: a fresh hit at age 5 < 10, a stale hit at age
15 ∈ [10, 30), an expired entry at age 40 ≥ 30, and a miss. -/
theorem spec_C2_witness :
    (stale_while_revalidate 10 20 ((.ok (some (0, (42 : ℚ)))) : Except ℕ (Option (ℚ × ℚ)))
        5 (.ok 7) true 5 = ⟨.ok 42, false, false, some (0, 42)⟩) ∧
    (stale_while_revalidate 10 20 ((.ok (some (0, (42 : ℚ)))) : Except ℕ (Option (ℚ × ℚ)))
        15 (.ok 7) true 15 = ⟨.ok 42, false, true, some (0, 42)⟩) ∧
    ((stale_while_revalidate 10 20 ((.ok (some (0, (42 : ℚ)))) : Except ℕ (Option (ℚ × ℚ)))
        40 (.ok 7) true 40).syncFetch = true ∧
     (stale_while_revalidate 10 20 ((.ok (some (0, (42 : ℚ)))) : Except ℕ (Option (ℚ × ℚ)))
        40 (.ok 7) true 40).result = .ok 7) ∧
    ((stale_while_revalidate 10 20 ((.ok none) : Except ℕ (Option (ℚ × ℚ)))
        40 (.ok 7) true 40).syncFetch = true ∧
     (stale_while_revalidate 10 20 ((.ok none) : Except ℕ (Option (ℚ × ℚ)))
        40 (.ok 7) true 40).result = .ok 7) := by
  refine ⟨?_, ?_, ?_, ?_⟩
  · exact (spec_C2 10 20 0 5 5 42 (.ok (some (0, 42))) (.ok 7) true
      (by norm_num)).1 rfl (by norm_num)
  · exact (spec_C2 10 20 0 15 15 42 (.ok (some (0, 42))) (.ok 7) true
      (by norm_num)).2.1 rfl (by norm_num) (by norm_num)
  · exact (spec_C2 10 20 0 40 40 42 (.ok (some (0, 42))) (.ok 7) true
      (by norm_num)).2.2.1 rfl (by norm_num)
  · exact (spec_C2 10 20 0 40 40 42 (.ok none) (.ok 7) true
      (by norm_num)).2.2.2 rfl

/-- C4: when the wrapped function raises on a synchronous path — cache
miss, or an entry past `ttl + grace` — the error is handed to the caller
unchanged and the cache entry for the key is exactly what it was before
the invocation (`none` on a miss, the old pair on expiry). -/
theorem spec_C4 {α ε : Type} (ttl grace now ft : ℚ) (e : ε)
    (readRes : Except ε (Option (ℚ × α))) (w : Bool) :
    (readRes = .ok none →
      stale_while_revalidate ttl grace readRes now (.error e) w ft =
        ⟨.error e, true, false, none⟩) ∧
    (∀ ts v, readRes = .ok (some (ts, v)) → ¬ now - ts < ttl →
      ¬ now - ts < ttl + grace →
      stale_while_revalidate ttl grace readRes now (.error e) w ft =
        ⟨.error e, true, false, some (ts, v)⟩) := by
  constructor
  · rintro rfl
    rfl
  · rintro ts v rfl h1 h2
    simp [stale_while_revalidate, fetch_and_cache, h1, h2]

/-- Witness for C4: a miss and an expired entry (age 40 ≥ 10 + 20), the
wrapped function failing with error 9. -/
theorem spec_C4_witness :
    (stale_while_revalidate 10 20 ((.ok none) : Except ℕ (Option (ℚ × ℚ)))
        40 (.error 9) true 40 = ⟨.error 9, true, false, none⟩) ∧
    (stale_while_revalidate 10 20 ((.ok (some (0, (42 : ℚ)))) : Except ℕ (Option (ℚ × ℚ)))
        40 (.error 9) true 40 = ⟨.error 9, true, false, some (0, 42)⟩) := by
  constructor
  · exact (spec_C4 10 20 40 40 9 (.ok none) true).1 rfl
  · exact (spec_C4 10 20 40 40 9 (.ok (some (0, 42))) true).2 0 42 rfl
      (by norm_num) (by norm_num)

/-- C6: store failure is invisible to the caller.  A failed (or corrupt)
read produces exactly the outcome of a cache miss — in particular the
wrapped function is executed — and when the fetch succeeds but the store
write fails, the fetched value is still returned and the entry is simply
left unwritten. -/
theorem spec_C6 {α ε : Type} (ttl grace now ft : ℚ) (er : ε)
    (fr : Except ε α) (w : Bool) :
    (stale_while_revalidate ttl grace ((.error er) : Except ε (Option (ℚ × α)))
        now fr w ft =
      stale_while_revalidate ttl grace (.ok none) now fr w ft ∧
     (stale_while_revalidate ttl grace ((.error er) : Except ε (Option (ℚ × α)))
        now fr w ft).syncFetch = true) ∧
    (∀ v, fr = .ok v →
      (stale_while_revalidate ttl grace ((.ok none) : Except ε (Option (ℚ × α)))
          now fr false ft).result = .ok v ∧
      (stale_while_revalidate ttl grace ((.ok none) : Except ε (Option (ℚ × α)))
          now fr false ft).entry = none) := by
  refine ⟨⟨rfl, rfl⟩, ?_⟩
  rintro v rfl
  exact ⟨rfl, rfl⟩

/-- Witness for C6 with a concrete read error and a successful fetch of
7 whose store write fails. -/
theorem spec_C6_witness :
    (stale_while_revalidate 10 20 ((.error 3) : Except ℕ (Option (ℚ × ℚ)))
        40 (.ok 7) true 40 =
      stale_while_revalidate 10 20 (.ok none) 40 (.ok 7) true 40 ∧
     (stale_while_revalidate 10 20 ((.error 3) : Except ℕ (Option (ℚ × ℚ)))
        40 (.ok 7) true 40).syncFetch = true) ∧
    ((stale_while_revalidate 10 20 ((.ok none) : Except ℕ (Option (ℚ × ℚ)))
        40 (.ok 7) false 40).result = .ok 7 ∧
     (stale_while_revalidate 10 20 ((.ok none) : Except ℕ (Option (ℚ × ℚ)))
        40 (.ok 7) false 40).entry = none) :=
  ⟨(spec_C6 10 20 40 40 3 (.ok 7) true).1,
   (spec_C6 10 20 40 40 3 (.ok 7) true).2 7 rfl⟩

/-- C10: a clean no-data result (`None`) is cached like any other value.
On a miss with the wrapped function succeeding with `None`, the wrapper
returns `None` and writes `(timestamp, None)`; a later call within `ttl`
returns the cached `None` without awaiting or scheduling the wrapped
function, whatever that function would now produce. -/
theorem spec_C10 {β ε : Type} (ttl grace t1 t2 ft : ℚ)
    (fr2 : Except ε (Option β)) (w2 : Bool) (hfresh : t2 - t1 < ttl) :
    stale_while_revalidate ttl grace
        ((.ok none) : Except ε (Option (ℚ × Option β))) t1 (.ok none) true t1 =
      ⟨.ok none, true, false, some (t1, none)⟩ ∧
    stale_while_revalidate ttl grace (.ok (some (t1, (none : Option β))))
        t2 fr2 w2 ft =
      ⟨.ok none, false, false, some (t1, none)⟩ := by
  constructor
  · rfl
  · simp [stale_while_revalidate, hfresh]

/-- Witness for C10 with `ttl = 10`, first call at time 0, second at
time 5, the second fetch (never run) primed to return 3. -/
theorem spec_C10_witness :
    stale_while_revalidate 10 20
        ((.ok none) : Except ℕ (Option (ℚ × Option ℚ))) 0 (.ok none) true 0 =
      ⟨.ok none, true, false, some (0, none)⟩ ∧
    stale_while_revalidate 10 20 (.ok (some (0, (none : Option ℚ))))
        5 ((.ok (some 3)) : Except ℕ (Option ℚ)) true 5 =
      ⟨.ok none, false, false, some (0, none)⟩ :=
  spec_C10 10 20 0 5 5 (.ok (some 3)) true (by norm_num)

/-- C3 counterexample: with providers `[raise, no-data]` no valid price
exists, so `fetch_price` is `none` — but `fetch_price` RETURNS `None`
rather than raising, so on a cache miss the wrapper receives a
successful fetch: it returns `.ok none` to the first-time caller as an
ordinary value (`isOk`), and even caches `(0, none)`.  No fetch failure
is propagated, contrary to the claim. -/
theorem spec_C3_counterexample :
    fetch_price ([.error 0, .ok none] : List (Except ℕ (Option ℚ))) = none ∧
    (stale_while_revalidate 10 20 ((.ok none) : Except ℕ (Option (ℚ × Option ℚ))) 0
        (.ok (fetch_price ([.error 0, .ok none] : List (Except ℕ (Option ℚ))))) true 0).result
      = .ok none ∧
    (stale_while_revalidate 10 20 ((.ok none) : Except ℕ (Option (ℚ × Option ℚ))) 0
        (.ok (fetch_price ([.error 0, .ok none] : List (Except ℕ (Option ℚ))))) true 0).result.isOk
      = true ∧
    (stale_while_revalidate 10 20 ((.ok none) : Except ℕ (Option (ℚ × Option ℚ))) 0
        (.ok (fetch_price ([.error 0, .ok none] : List (Except ℕ (Option ℚ))))) true 0).entry
      = some (0, none) :=
  ⟨rfl, rfl, rfl, rfl⟩

/-- C3 amended: when zero providers return a successful non-absent
reading, `fetch_price` returns `None` without raising; on a cache miss
the wrapper therefore treats it as an ordinary successful fetch,
returning `None` to the first-time caller and caching
`(timestamp, None)` — no fetch failure is surfaced. -/
theorem spec_C3_amended {ε : Type} (results : List (Except ε (Option ℚ)))
    (h : ∀ r ∈ results, ∀ p : ℚ, r ≠ .ok (some p)) (ttl grace now ft : ℚ) :
    fetch_price results = none ∧
    stale_while_revalidate ttl grace ((.ok none) : Except ε (Option (ℚ × Option ℚ)))
        now (.ok (fetch_price results)) true ft =
      ⟨.ok none, true, false, some (ft, none)⟩ := by
  have hfp : fetch_price results = none := by
    unfold fetch_price
    have hnil : results.filterMap (fun r =>
        match r with
        | .ok (some p) => some p
        | _ => none) = [] := by
      rw [List.filterMap_eq_nil_iff]
      intro r hr
      match r with
      | .error e => rfl
      | .ok none => rfl
      | .ok (some p) => exact absurd rfl (h _ hr p)
    rw [hnil]
    rfl
  refine ⟨hfp, ?_⟩
  rw [hfp]
  rfl

/-- Witness for C3-amended: one raising provider and one returning
no data. -/
theorem spec_C3_amended_witness :
    fetch_price ([.error 0, .ok none] : List (Except ℕ (Option ℚ))) = none ∧
    stale_while_revalidate 10 20 ((.ok none) : Except ℕ (Option (ℚ × Option ℚ)))
        0 (.ok (fetch_price ([.error 0, .ok none] : List (Except ℕ (Option ℚ))))) true 0 =
      ⟨.ok none, true, false, some (0, none)⟩ := by
  refine spec_C3_amended [.error 0, .ok none] ?_ 10 20 0 0
  intro r hr p
  simp only [List.mem_cons, List.mem_singleton] at hr
  rcases hr with rfl | rfl | hr
  · simp
  · simp
  · simp at hr

/-- C5 counterexample: the wrapper hashes
`f"{module}:{name}:{str(args)}:{str(kwargs)}"` and `str(kwargs)` renders
the dict in insertion order — nothing sorts it.  Supplying equal named
arguments in a different order therefore produces a different canonical
string (hence a different SHA-256 key): named-argument order is NOT
normalized. -/
theorem spec_C5_counterexample :
    key_content "m" "f" "(1,)" [("a", "1"), ("b", "2")] ≠
      key_content "m" "f" "(1,)" [("b", "2"), ("a", "1")] := by
  decide

/-- C5 amended: the cache key is a deterministic function of the
operation's module, name, and the textual representations of its
arguments — two invocations with the same operation, the same positional
arguments, and the same named arguments in the same order always yield
the same key — but the canonical string keeps named arguments in
insertion order, so equal named arguments supplied in a different order
yield a different key. -/
theorem spec_C5_amended (m₁ m₂ f₁ f₂ a₁ a₂ : String)
    (k₁ k₂ : List (String × String)) (hm : m₁ = m₂) (hf : f₁ = f₂)
    (ha : a₁ = a₂) (hk : k₁ = k₂) :
    key_content m₁ f₁ a₁ k₁ = key_content m₂ f₂ a₂ k₂ ∧
    key_content "m" "f" "(1,)" [("a", "1"), ("b", "2")] ≠
      key_content "m" "f" "(1,)" [("b", "2"), ("a", "1")] := by
  subst hm hf ha hk
  exact ⟨rfl, by decide⟩

/-- Witness for C5-amended at concrete equal components. -/
theorem spec_C5_witness :
    key_content "mod" "fn" "(1, 2)" [("a", "1")] =
      key_content "mod" "fn" "(1, 2)" [("a", "1")] ∧
    key_content "m" "f" "(1,)" [("a", "1"), ("b", "2")] ≠
      key_content "m" "f" "(1,)" [("b", "2"), ("a", "1")] :=
  spec_C5_amended "mod" "mod" "fn" "fn" "(1, 2)" "(1, 2)"
    [("a", "1")] [("a", "1")] rfl rfl rfl rfl
